import Mathlib

/-!
Verification of the multi-agent document orchestration core
(backend/app/agents) against its natural-language specification.

The Python source is shallowly embedded: each relevant class/method is
translated to a Lean structure/function.  Python `datetime.utcnow()` is
modelled by an explicit clock parameter (`now : Nat`); Python exceptions
are modelled by `Except`/`Option` results; external LLM adapters and the
JSON parser are modelled as oracle parameters.
-/

namespace DocuForge

/-! ## agent_states.py — enums and data model -/

/-- Possible states for agents (`AgentState` in agent_states.py). -/
inductive AgentState where
  | idle
  | analyzing
  | planning
  | writing
  | reviewing
  | updating_preview
  | waiting_feedback
  | error
deriving DecidableEq, Repr

/-- Actions that agents can perform (`AgentAction` in agent_states.py). -/
inductive AgentAction where
  | analyze_request
  | create_plan
  | update_plan
  | write_content
  | review_content
  | update_preview
  | request_feedback
  | handle_error
deriving DecidableEq, Repr

/-- One section dict of a plan, as built by the planner
(keys title/description/estimated_words/priority). -/
structure PlanSection where
  title : String
  description : String
  estimated_words : Int
  priority : String
deriving DecidableEq, Repr

/-- The plan dict produced by `DocumentPlanner._parse_plan_response`
(keys document_type/title/sections/estimated_time). -/
structure PlanData where
  document_type : String
  title : String
  sections : List PlanSection
  estimated_time : Int
deriving DecidableEq, Repr

/-- Result dicts returned by `DocumentWriter.write_content`
(the fields read by the orchestrator). -/
structure WriteResult where
  success : Bool
  words_written : Int
  document_updated : Bool
  changes_made : Int
  error : Option String
deriving DecidableEq, Repr

/-- Result dicts returned by `DocumentReviewer.review_content`
(the fields read by the orchestrator). -/
structure ReviewResult where
  success : Bool
  score : Int
  error : Option String
deriving DecidableEq, Repr

/-- Plan for document creation (`DocumentPlan` in agent_states.py).
Timestamps model `datetime.utcnow` samples. -/
structure DocumentPlan where
  document_type : String
  title : String
  sections : List PlanSection
  estimated_time : Int
  current_step : Int := 0
  total_steps : Int := 0
  created_at : Nat := 0
  updated_at : Nat := 0
deriving DecidableEq, Repr

/-- The heterogeneous `metadata` dict attached to an `AgentMessage`. -/
inductive MsgMeta where
  | empty
  | planMeta (p : DocumentPlan)
  | writeMeta (w : WriteResult)
  | reviewMeta (r : ReviewResult)
  | pairs (l : List (String × String))
deriving DecidableEq, Repr

/-- Message from an agent (`AgentMessage` in agent_states.py). -/
structure AgentMessage where
  agent_type : String
  message_type : String
  content : String
  metadata : MsgMeta
  timestamp : Nat
deriving DecidableEq, Repr

/-- One entry of `AgentStateManager.state_history`.  The source stores a
dict with keys timestamp/from_state/to_state/agent/message. -/
structure StateTransition where
  timestamp : Nat
  from_state : Option AgentState
  to_state : AgentState
  agent : String
  message : Option String
deriving DecidableEq, Repr

/-- The `AgentStateManager` instance state (agent_states.py). -/
structure AgentStateManager where
  current_state : AgentState
  previous_states : List AgentState
  state_history : List StateTransition
  current_agent : Option String
  message_queue : List AgentMessage
deriving DecidableEq, Repr

/-- Fresh manager as built by `AgentStateManager.__init__`. -/
def AgentStateManager.init : AgentStateManager :=
  { current_state := .idle
    previous_states := []
    state_history := []
    current_agent := none
    message_queue := [] }

/-- The body of `AgentStateManager.transition_to`: if the target differs
from the current state, push the old state, switch, and append one
history entry; otherwise do nothing.  `now` models `datetime.utcnow()`. -/
def AgentStateManager.transition_to (m : AgentStateManager) (new_state : AgentState)
    (agent_type : String) (message : Option String) (now : Nat) : AgentStateManager :=
  if m.current_state ≠ new_state then
    let prev := m.previous_states ++ [m.current_state]
    { m with
      previous_states := prev
      current_state := new_state
      current_agent := some agent_type
      state_history := m.state_history ++
        [{ timestamp := now
           from_state := prev.getLast?
           to_state := new_state
           agent := agent_type
           message := message }] }
  else
    m

/-- The method `AgentStateManager.add_message`. -/
def AgentStateManager.add_message (m : AgentStateManager) (msg : AgentMessage) :
    AgentStateManager :=
  { m with message_queue := m.message_queue ++ [msg] }

/-- The method `AgentStateManager.get_messages` with `clear=True`: return a copy
of the queue and clear it. -/
def AgentStateManager.get_messages (m : AgentStateManager) :
    List AgentMessage × AgentStateManager :=
  (m.message_queue, { m with message_queue := [] })

/-- The `allowed_transitions` table inside `AgentStateManager.can_transition_to`. -/
def allowed_transitions : AgentState → List AgentState
  | .idle => [.analyzing]
  | .analyzing => [.planning, .writing, .error]
  | .planning => [.writing, .error]
  | .writing => [.reviewing, .updating_preview, .error]
  | .reviewing => [.writing, .updating_preview, .waiting_feedback, .error]
  | .updating_preview => [.idle, .waiting_feedback]
  | .waiting_feedback => [.analyzing, .idle]
  | .error => [.idle, .analyzing]

/-- The method `AgentStateManager.can_transition_to`. -/
def AgentStateManager.can_transition_to (m : AgentStateManager)
    (new_state : AgentState) : Bool :=
  decide (new_state ∈ allowed_transitions m.current_state)

/-- The method `AgentStateManager.is_busy`. -/
def AgentStateManager.is_busy (m : AgentStateManager) : Bool :=
  decide (m.current_state ∉ [AgentState.idle, AgentState.waiting_feedback])

/-! ## agent_states.py — PreviewUpdateDecision -/

/-- The `PreviewUpdateDecision` instance state. -/
structure PreviewUpdateDecision where
  last_update_time : Option Int
  min_update_interval : Int
  force_update_triggers : List AgentState
deriving DecidableEq, Repr

/-- Fresh engine as built by `PreviewUpdateDecision.__init__`. -/
def PreviewUpdateDecision.init : PreviewUpdateDecision :=
  { last_update_time := none
    min_update_interval := 30
    force_update_triggers := [.idle, .waiting_feedback] }

/-- The method `PreviewUpdateDecision.should_update_preview`, translated
branch for branch from agent_states.py lines 179-209. -/
def PreviewUpdateDecision.should_update_preview (e : PreviewUpdateDecision)
    (current_state : AgentState) (last_action : AgentAction)
    (time_since_last_update : Int) (content_changes : Int)
    (user_requested : Bool) : Bool :=
  if user_requested then
    true
  else if current_state ∈ e.force_update_triggers then
    true
  else if content_changes > 100 ∧ time_since_last_update ≥ e.min_update_interval then
    true
  else if last_action = AgentAction.write_content ∧
      time_since_last_update ≥ e.min_update_interval then
    true
  else if last_action = AgentAction.review_content then
    true
  else
    false

/-- The method `PreviewUpdateDecision.record_update` (`now` models utcnow). -/
def PreviewUpdateDecision.record_update (e : PreviewUpdateDecision) (now : Int) :
    PreviewUpdateDecision :=
  { e with last_update_time := some now }

/-! ## Helpers mirroring the Python string primitives used by the source.
Python strings are sequences of code points; they are modelled as Lean
`String`/`List Char`, with ASCII-exact case mapping (all literals in the
source are ASCII). -/

/-- Whitespace set of Python `str.split` / `str.strip` / regex `\s`
(ASCII part: space, tab, newline, carriage return, vertical tab, form feed). -/
def pyIsSpace (c : Char) : Bool :=
  c = ' ' ∨ c = '\t' ∨ c = '\n' ∨ c = '\r' ∨ c = Char.ofNat 11 ∨ c = Char.ofNat 12

/-- ASCII lower-casing of one character, as Python `str.lower` does on ASCII. -/
def pyLowerChar (c : Char) : Char :=
  if 'A' ≤ c ∧ c ≤ 'Z' then Char.ofNat (c.toNat + 32) else c

/-- Python `str.lower` (ASCII fragment). -/
def pyLower (s : String) : String :=
  String.mk (s.toList.map pyLowerChar)

/-- Python `str.strip` with no argument: drop whitespace from both ends. -/
def pyStrip (s : String) : String :=
  String.mk (((s.toList.dropWhile pyIsSpace).reverse.dropWhile pyIsSpace).reverse)

/-- Worker for `pyWords`: split on whitespace runs, dropping empties. -/
def pyWordsGo : List Char → List Char → List String
  | [], cur => if cur.isEmpty then [] else [String.mk cur.reverse]
  | c :: cs, cur =>
    if pyIsSpace c then
      if cur.isEmpty then pyWordsGo cs [] else String.mk cur.reverse :: pyWordsGo cs []
    else
      pyWordsGo cs (c :: cur)

/-- Python `str.split` with no argument. -/
def pyWords (s : String) : List String :=
  pyWordsGo s.toList []

/-- Worker for `pyContains`: is `sub` an infix of the second list? -/
def listInfix (sub : List Char) : List Char → Bool
  | [] => sub.isEmpty
  | c :: cs => sub.isPrefixOf (c :: cs) || listInfix sub cs

/-- Python substring test `sub in s`. -/
def pyContains (s sub : String) : Bool :=
  listInfix sub.toList s.toList

/-- Python `str.startswith` on a literal prefix. -/
def pyStartsWith (s pre : String) : Bool :=
  pre.toList.isPrefixOf s.toList

/-- Python `str.find` for a single character: index of the first
occurrence, or `none` where Python returns -1. -/
def pyFindChar (s : String) (c : Char) : Option Nat :=
  s.toList.indexOf? c

/-- Python `str.rfind` for a single character: index of the last
occurrence, or `none` where Python returns -1. -/
def pyRFindChar (s : String) (c : Char) : Option Nat :=
  match (s.toList.reverse.indexOf? c) with
  | some i => some (s.toList.length - 1 - i)
  | none => none

/-- Python slice `s[a:b]` (with `0 ≤ a ≤ b` clamping as in Python). -/
def pySlice (s : String) (a b : Nat) : String :=
  String.mk ((s.toList.take b).drop a)

/-- Worker for `pyReplace`: replace every non-overlapping occurrence of the
nonempty pattern `p :: ps`, scanning left to right. -/
def pyReplaceGo (p : Char) (ps : List Char) (repl : List Char) :
    List Char → List Char
  | [] => []
  | c :: cs =>
    if (p :: ps).isPrefixOf (c :: cs) then
      repl ++ pyReplaceGo p ps repl (cs.drop ps.length)
    else
      c :: pyReplaceGo p ps repl cs
termination_by l => l.length
decreasing_by
  · simp only [List.length_drop, List.length_cons]
    omega
  · simp only [List.length_cons]
    omega

/-- Python `str.replace(old, new)` for a nonempty literal `old`. -/
def pyReplace (s old new : String) : String :=
  match old.toList with
  | [] => s
  | p :: ps => String.mk (pyReplaceGo p ps new.toList s.toList)

/-- Python `str.splitlines`-like `split('\n')`: split on the newline
character, keeping empty pieces, as `"a\nb".split('\n')` does. -/
def pySplitNl (s : String) : List String :=
  (s.toList.splitOn '\n').map String.mk

/-! ## agent_config.py -/

/-- Different types of agents in the system (`AgentType`). -/
inductive AgentType where
  | orchestrator
  | planner
  | writer
  | reviewer
deriving DecidableEq, Repr

/-- The `.value` string of an `AgentType` member. -/
def AgentType.value : AgentType → String
  | .orchestrator => "orchestrator"
  | .planner => "planner"
  | .writer => "writer"
  | .reviewer => "reviewer"

/-- The `.value` strings of the `LLMProvider` enum, in declaration order;
`validate_config` builds exactly this list. -/
def valid_providers : List String := ["openai", "claude", "google", "mock"]

/-- Configuration for agent LLM assignments (`AgentConfig`). -/
structure AgentConfig where
  orchestrator_llm : String := "google"
  orchestrator_model : String := "gemini-2.5-pro"
  planner_llm : String := "google"
  planner_model : String := "gemini-2.5-pro"
  writer_llm : String := "google"
  writer_model : String := "gemini-2.5-pro"
  reviewer_llm : String := "google"
  reviewer_model : String := "gemini-2.5-pro"
  fallback_llm : String := "mock"
  fallback_model : String := "mock"
  max_retries : Int := 3
  timeout_seconds : Int := 30
deriving DecidableEq, Repr

/-- The method `AgentConfig.get_llm_for_agent`.  The dict covers every
`AgentType` member, so the `.get` default branch is unreachable. -/
def AgentConfig.get_llm_for_agent (c : AgentConfig) : AgentType → String × String
  | .orchestrator => (c.orchestrator_llm, c.orchestrator_model)
  | .planner => (c.planner_llm, c.planner_model)
  | .writer => (c.writer_llm, c.writer_model)
  | .reviewer => (c.reviewer_llm, c.reviewer_model)

/-- A `Dict[str, Any]` of updates for `update_config`, restricted to the
twelve known `AgentConfig` keys (an unknown key would make
`AgentConfig.from_dict` raise `TypeError` before anything is stored). -/
structure ConfigUpdates where
  orchestrator_llm : Option String := none
  orchestrator_model : Option String := none
  planner_llm : Option String := none
  planner_model : Option String := none
  writer_llm : Option String := none
  writer_model : Option String := none
  reviewer_llm : Option String := none
  reviewer_model : Option String := none
  fallback_llm : Option String := none
  fallback_model : Option String := none
  max_retries : Option Int := none
  timeout_seconds : Option Int := none
deriving DecidableEq, Repr

/-- The `config_dict.update(updates)` followed by `AgentConfig.from_dict`
step of `update_config`: field-wise override. -/
def applyUpdates (c : AgentConfig) (u : ConfigUpdates) : AgentConfig :=
  { orchestrator_llm := u.orchestrator_llm.getD c.orchestrator_llm
    orchestrator_model := u.orchestrator_model.getD c.orchestrator_model
    planner_llm := u.planner_llm.getD c.planner_llm
    planner_model := u.planner_model.getD c.planner_model
    writer_llm := u.writer_llm.getD c.writer_llm
    writer_model := u.writer_model.getD c.writer_model
    reviewer_llm := u.reviewer_llm.getD c.reviewer_llm
    reviewer_model := u.reviewer_model.getD c.reviewer_model
    fallback_llm := u.fallback_llm.getD c.fallback_llm
    fallback_model := u.fallback_model.getD c.fallback_model
    max_retries := u.max_retries.getD c.max_retries
    timeout_seconds := u.timeout_seconds.getD c.timeout_seconds }

/-- The `AgentConfigManager` instance state: the process-wide default and
the per-document dict `_document_configs` (an association list keyed by
document id). -/
structure AgentConfigManager where
  default_config : AgentConfig
  document_configs : List (Int × AgentConfig)
deriving DecidableEq, Repr

/-- Fresh manager as built by `AgentConfigManager.__init__`. -/
def AgentConfigManager.init : AgentConfigManager :=
  { default_config := {}, document_configs := [] }

/-- Dict lookup `self._document_configs[document_id]`. -/
def AgentConfigManager.lookup (m : AgentConfigManager) (document_id : Int) :
    Option AgentConfig :=
  (m.document_configs.find? (fun p => p.1 = document_id)).map Prod.snd

/-- The method `AgentConfigManager.get_config`.  The Python guard is
`if document_id and document_id in self._document_configs`, so both
`None` and the falsy id `0` fall back to the default config. -/
def AgentConfigManager.get_config (m : AgentConfigManager)
    (document_id : Option Int) : AgentConfig :=
  match document_id with
  | some i =>
    if i ≠ 0 then
      match m.lookup i with
      | some c => c
      | none => m.default_config
    else
      m.default_config
  | none => m.default_config

/-- Dict store `self._document_configs[document_id] = config`. -/
def AgentConfigManager.store (m : AgentConfigManager) (document_id : Int)
    (config : AgentConfig) : AgentConfigManager :=
  { m with document_configs :=
      (document_id, config) ::
        m.document_configs.filter (fun p => p.1 ≠ document_id) }

/-- The method `AgentConfigManager.set_config`.  The Python guard is
`if document_id:`, so `None` and `0` replace the process-wide default. -/
def AgentConfigManager.set_config (m : AgentConfigManager) (config : AgentConfig)
    (document_id : Option Int) : AgentConfigManager :=
  match document_id with
  | some i =>
    if i ≠ 0 then m.store i config
    else { m with default_config := config }
  | none => { m with default_config := config }

/-- The method `AgentConfigManager.update_config`: read the current config,
overlay the updates, and store the result.  No validation is performed. -/
def AgentConfigManager.update_config (m : AgentConfigManager)
    (updates : ConfigUpdates) (document_id : Option Int) : AgentConfigManager :=
  let current_config := m.get_config document_id
  let new_config := applyUpdates current_config updates
  m.set_config new_config document_id

/-- The provider loop `for agent_type in AgentType` of `validate_config`:
first invalid provider message, if any. -/
def providerError (config : AgentConfig) : List AgentType → Option String
  | [] => none
  | t :: ts =>
    let (provider, _model) := config.get_llm_for_agent t
    if provider ∉ valid_providers then
      some ("Invalid provider '" ++ provider ++ "' for " ++ t.value)
    else
      providerError config ts

/-- The method `AgentConfigManager.validate_config`: providers of all four
agent types must be known, then `max_retries ≥ 1`, then
`timeout_seconds ≥ 5`.  Returns the `(ok, error message)` pair of the
source. -/
def AgentConfigManager.validate_config (_m : AgentConfigManager)
    (config : AgentConfig) : Bool × Option String :=
  match providerError config [.orchestrator, .planner, .writer, .reviewer] with
  | some msg => (false, some msg)
  | none =>
    if config.max_retries < 1 then
      (false, some "max_retries must be at least 1")
    else if config.timeout_seconds < 5 then
      (false, some "timeout_seconds must be at least 5")
    else
      (true, none)

/-! ## llm_router.py -/

/-- One chat message dict with keys role/content. -/
structure ChatMessage where
  role : String
  content : String
deriving DecidableEq, Repr

/-- A provider adapter, abstracted at its `generate` capability: given the
messages, the model name and the effective timeout, it either returns the
generated text or fails (`none` models a raised exception / timeout). -/
structure Adapter where
  generate : List ChatMessage → String → Int → Option String
  stream : List ChatMessage → String → Int → Option (List String)

/-- The adapter dict `self.adapters` of `LLMRouter`: which providers got an
adapter at initialisation (a missing credential leaves a provider out). -/
def AdapterMap : Type := String → Option Adapter

/-- The mock-fallback apology synthesized inside `route_request` when the
fallback provider is "mock" (f-string of llm_router.py lines 415-417). -/
def mockFallbackText (last_user_message : String) : String :=
  "I apologize, but I'm currently experiencing issues connecting to the AI service. " ++
  "Your request '" ++ last_user_message ++
  "' has been received, but I cannot generate the full content right now. " ++
  "Please try again in a few moments. The system will continue to save any generated content."

/-- The terminal apology returned by `route_request` when primary and
fallback both fail (llm_router.py line 431). -/
def finalApology : String :=
  "I apologize, but I'm currently unable to process your request due to AI service issues. Please try again later."

/-- The fallback half of `route_request` (lines 407-433): try the configured
fallback provider once; a "mock" fallback synthesizes an apology from the
last message instead of calling the adapter; if everything fails, return
the terminal apology. -/
def routeFallback (adapters : AdapterMap) (config : AgentConfig)
    (messages : List ChatMessage) (timeout : Int) : String :=
  let fallback_provider := config.fallback_llm
  match adapters fallback_provider with
  | some ad =>
    if fallback_provider = "mock" then
      let last_user_message :=
        match messages.getLast? with
        | some m => m.content
        | none => "unknown request"
      mockFallbackText last_user_message
    else
      match ad.generate messages config.fallback_model timeout with
      | some result => result
      | none => finalApology
  | none => finalApology

/-- The method `LLMRouter.route_request` (llm_router.py lines 384-433):
resolve the provider for the agent type, try it, then fall back.
`timeout` is `kwargs['timeout']` after the `config.timeout_seconds`
default has been filled in. -/
def route_request (adapters : AdapterMap) (config : AgentConfig)
    (agent_type : AgentType) (messages : List ChatMessage) (timeout : Int) : String :=
  let (provider, model) := config.get_llm_for_agent agent_type
  match adapters provider with
  | some ad =>
    match ad.generate messages model timeout with
    | some result => result
    | none => routeFallback adapters config messages timeout
  | none => routeFallback adapters config messages timeout

/-! ## document_reviewer.py — score extraction -/

/-- Numeric value of an ASCII digit run, as Python `int` on the matched group. -/
def digitsToNat (ds : List Char) : Nat :=
  ds.foldl (fun n c => 10 * n + (c.toNat - 48)) 0

/-- Leftmost match of the regex `key[:\s]*(\d+)` (with `key` a literal such
as "score" or "rating"): Python `re.search` tries each start position in
order; at a position the literal must match, then a maximal run of `:`
or whitespace is skipped, then at least one digit is required.  Returns
the value of the digit group.  (In `score[:\s]*(\d+)(?:/10)?` the
optional `/10` tail never affects the group.) -/
def searchKeyNum (key : List Char) : List Char → Option Nat
  | [] => none
  | c :: cs =>
    if key.isPrefixOf (c :: cs) then
      let after := ((c :: cs).drop key.length).dropWhile (fun d => d = ':' || pyIsSpace d)
      let ds := after.takeWhile Char.isDigit
      if ds.isEmpty then searchKeyNum key cs else some (digitsToNat ds)
    else
      searchKeyNum key cs

/-- Leftmost match of the regex `(\d+)/10`: a maximal digit run followed by
the literal `/10`.  (Backtracking inside `\d+` can never help: a shorter
run leaves a digit where `/` is required.) -/
def searchSlashTen : List Char → Option Nat
  | [] => none
  | c :: cs =>
    let ds := (c :: cs).takeWhile Char.isDigit
    if !ds.isEmpty && "/10".toList.isPrefixOf ((c :: cs).drop ds.length) then
      some (digitsToNat ds)
    else
      searchSlashTen cs

/-- The clamp `min(max(score, 1), 10)` of `_extract_score`. -/
def clampScore (n : Nat) : Int :=
  min (max (n : Int) 1) 10

/-- The method `DocumentReviewer._extract_score` (document_reviewer.py lines
150-170): try the patterns `score[:\s]*(\d+)(?:/10)?`, `(\d+)/10`,
`rating[:\s]*(\d+)` in order on the lower-cased response; clamp the first
match to [1, 10]; default to 7. -/
def extract_score (response : String) : Int :=
  let cs := (pyLower response).toList
  match searchKeyNum "score".toList cs with
  | some n => clampScore n
  | none =>
    match searchSlashTen cs with
    | some n => clampScore n
    | none =>
      match searchKeyNum "rating".toList cs with
      | some n => clampScore n
      | none => 7

/-! ## document_planner.py — response parsing -/

/-- The hard-coded fallback of `DocumentPlanner._create_basic_plan_structure`
(document_planner.py lines 216-243). -/
def create_basic_plan_structure : PlanData :=
  { document_type := "document"
    title := "Document"
    sections :=
      [ { title := "Introduction"
          description := "Document introduction"
          estimated_words := 150
          priority := "high" }
      , { title := "Main Content"
          description := "Main document content"
          estimated_words := 500
          priority := "high" }
      , { title := "Conclusion"
          description := "Document conclusion"
          estimated_words := 100
          priority := "medium" } ]
    estimated_time := 900 }

/-- One iteration of the line loop of `_extract_plan_from_text`, folding the
(title, sections) accumulator over a stripped line. -/
def planFromTextStep (acc : String × List PlanSection) (rawLine : String) :
    String × List PlanSection :=
  let line := pyStrip rawLine
  if pyStartsWith line "Title:" || pyStartsWith line "# " then
    (pyStrip (pyReplace (pyReplace line "Title:" "") "# " ""), acc.2)
  else if pyStartsWith line "- " || pyStartsWith line "* " then
    (acc.1,
      acc.2 ++
        [{ title := pyStrip (pyReplace (pyReplace line "- " "") "* " "")
           description := ""
           estimated_words := 200
           priority := "medium" }])
  else
    acc

/-- The method `DocumentPlanner._extract_plan_from_text` (lines 189-214):
line-heuristic extraction, 300 seconds per section. -/
def extract_plan_from_text (text : String) : PlanData :=
  let r := (pySplitNl text).foldl planFromTextStep ("Document", [])
  { document_type := "document"
    title := r.1
    sections := r.2
    estimated_time := (r.2.length : Int) * 300 }

/-- The method `DocumentPlanner._parse_plan_response` (lines 167-187).
`jsonPlan` is the `json.loads` oracle: `some` when its argument parses as
a plan-shaped JSON object, `none` when `json.loads` raises.  A raised
parse error is caught and answered with the hard-coded basic structure;
a response with no `{` at all goes to text extraction instead.  The
Python `end` (rfind of the closing brace, plus one) can never be -1, so
the guard reduces to `start != -1`; with no closing brace the slice is
empty and the parse of the empty string fails. -/
def parse_plan_response (jsonPlan : String → Option PlanData) (response : String) :
    PlanData :=
  if pyStartsWith (pyStrip response) "\x7b" then
    match jsonPlan response with
    | some d => d
    | none => create_basic_plan_structure
  else
    match pyFindChar response '{' with
    | some s =>
      let e := match pyRFindChar response '}' with
        | some j => j + 1
        | none => 0
      match jsonPlan (pySlice response s e) with
      | some d => d
      | none => create_basic_plan_structure
    | none => extract_plan_from_text response

/-! ## document_orchestrator.py -/

/-- The analysis dict produced by `_analyze_request` (the fields the
pipeline reads; `analyzed_at`/`orchestrator_model` metadata keys are
bookkeeping only). -/
structure Analysis where
  intent : String
  action_needed : String
  confidence : Rat
  requires_planning : Bool
  requires_writing : Bool
  requires_review : Bool
deriving DecidableEq, Repr

/-- The list `simple_phrases` of `_analyze_request`. -/
def simple_phrases : List String :=
  ["hi", "hello", "hey", "thanks", "thank you", "how are you", "good morning",
   "good afternoon"]

/-- The list `document_creation_keywords` of `_analyze_request`. -/
def document_creation_keywords : List String :=
  ["write", "create", "draft", "generate", "make", "compose", "develop",
   "structure", "template", "outline", "proposal", "report", "document",
   "content", "text", "letter", "email", "plan", "strategy", "summary"]

/-- The list `template_keywords` of `_analyze_request` (computed by the
source but unused by its branches). -/
def template_keywords : List String :=
  ["template", "structure", "outline", "format", "example"]

/-- The list `question_patterns` of `_analyze_request`. -/
def question_patterns : List String :=
  ["what", "how", "why", "when", "where", "who", "explain", "tell me",
   "can you help", "how does", "what is", "what are"]

/-- The predicate `is_simple_greeting` over the lower-cased stripped
message: at most three words and some greeting phrase occurs as a
substring. -/
def is_simple_greeting (m : String) : Bool :=
  (pyWords m).length ≤ 3 && simple_phrases.any (fun p => pyContains m p)

/-- The predicate `requires_document_creation`: some authoring keyword
occurs as a substring. -/
def requires_document_creation (m : String) : Bool :=
  document_creation_keywords.any (fun p => pyContains m p)

/-- The predicate `is_template_request` (dead in the source branches). -/
def is_template_request (m : String) : Bool :=
  template_keywords.any (fun p => pyContains m p)

/-- The predicate `is_question_only`: some question pattern occurs and no
authoring keyword does. -/
def is_question_only (m : String) : Bool :=
  question_patterns.any (fun p => pyContains m p) && !requires_document_creation m

/-- The rule-based fallback classification of `_analyze_request`
(document_orchestrator.py lines 243-312), applied to
`user_message.lower().strip()`. -/
def fallback_analysis (user_message : String) : Analysis :=
  let m := pyStrip (pyLower user_message)
  if is_simple_greeting m then
    { intent := "conversation"
      action_needed := "respond"
      confidence := (8 : Rat) / 10
      requires_planning := false
      requires_writing := false
      requires_review := false }
  else if requires_document_creation m then
    { intent := "create_document"
      action_needed := "write"
      confidence := (7 : Rat) / 10
      requires_planning := false
      requires_writing := true
      requires_review := true }
  else if is_question_only m then
    { intent := "ask_question"
      action_needed := "respond"
      confidence := (6 : Rat) / 10
      requires_planning := false
      requires_writing := false
      requires_review := false }
  else
    { intent := "general_assistance"
      action_needed := "respond"
      confidence := (5 : Rat) / 10
      requires_planning := false
      requires_writing := true
      requires_review := true }

/-- The method `DocumentOrchestrator._analyze_request`: the model response
is parsed as structured data (`json.loads`, then the eval fallback, then
the metadata additions — all inside one try, abstracted by the
`parseIntent` oracle); when that fails, the deterministic rule-based
fallback classifies the user message. -/
def analyze_request (parseIntent : String → Option Analysis)
    (model_response : String) (user_message : String) : Analysis :=
  match parseIntent model_response with
  | some a => a
  | none => fallback_analysis user_message

/-- One entry of `self.process_activities` (the dict built by
`_emit_activity`). -/
structure Activity where
  agent : String
  action : String
  status : String
  startTime : Nat
  input : Option String
  output : Option String
  error : Option String
  endTime : Option Nat
  metadata : List (String × String)
deriving DecidableEq, Repr

/-- The method `DocumentOrchestrator._emit_activity`: append one activity
dict; completed/error activities get an end time.  Observer callbacks
are fire-and-forget (their exceptions are caught), so they do not appear
in the state. -/
def emit_activity (acts : List Activity) (agent action status : String)
    (input output error : Option String) (metadata : List (String × String))
    (now : Nat) : List Activity :=
  acts ++
    [{ agent := agent
       action := action
       status := status
       startTime := now
       input := input
       output := output
       error := error
       endTime := if status = "completed" || status = "error" then some now else none
       metadata := metadata }]

/-- The in-place mutation step of `_update_activity_status`: Python only
overwrites output/error when the argument is truthy (not None, not
empty). -/
def updateActivityFields (a : Activity) (status : String)
    (output error : Option String) (now : Nat) : Activity :=
  { a with
    status := status
    endTime := if status = "completed" || status = "error" then some now else a.endTime
    output :=
      match output with
      | some s => if s ≠ "" then some s else a.output
      | none => a.output
    error :=
      match error with
      | some s => if s ≠ "" then some s else a.error
      | none => a.error }

/-- Worker for `update_activity_status`, scanning the reversed list for the
first agent/action match (Python iterates `reversed(...)` and breaks). -/
def updateActivityGo (agent action status : String) (output error : Option String)
    (now : Nat) : List Activity → List Activity
  | [] => []
  | a :: rest =>
    if a.agent = agent && a.action = action then
      updateActivityFields a status output error now :: rest
    else
      a :: updateActivityGo agent action status output error now rest

/-- The method `DocumentOrchestrator._update_activity_status`: update the
most recent activity with the given agent and action. -/
def update_activity_status (acts : List Activity) (agent action status : String)
    (output error : Option String) (now : Nat) : List Activity :=
  (updateActivityGo agent action status output error now acts.reverse).reverse

/-- Context for agent operations (`AgentContext` in agent_states.py). -/
structure AgentContext where
  document_id : Int
  conversation_id : Option Int
  user_message : String
  plan : Option DocumentPlan
  conversation_history : List ChatMessage
  metadata : List (String × String)
deriving DecidableEq, Repr

/-- The result dict built by `_execute_plan`. -/
structure ExecResult where
  content_generated : Bool
  content_reviewed : Bool
  changes_made : Int
  review_score : Option Int
deriving DecidableEq, Repr

/-- The mutable orchestrator-visible state threaded through one
`process_user_request` call: the global state manager, the global preview
engine, the activity list and the current plan. -/
structure OrchState where
  sm : AgentStateManager
  engine : PreviewUpdateDecision
  activities : List Activity
  current_plan : Option DocumentPlan
deriving DecidableEq, Repr

/-- Oracles for the awaited sub-steps of the pipeline.  Each models the
corresponding call; `Except.error e` models an exception with message
`str(e) = e` escaping that call.  `now` models the `datetime.utcnow`
samples of the request and `elapsed` its measured processing time. -/
structure OrchOracles where
  analyze : Except String Analysis
  plan_create : Except String DocumentPlan
  plan_update : DocumentPlan → Except String DocumentPlan
  write : Except String WriteResult
  review : Except String ReviewResult
  respond : Except String String
  now : Nat
  elapsed : Int

/-- The result dict of `process_user_request`: the success shape carries
response/plan_updated/preview_ready/processing_time, and the failure
shape carries the error; both carry the drained messages. -/
structure RequestResult where
  success : Bool
  response : Option String
  error : Option String
  plan_updated : Option Bool
  preview_ready : Option Bool
  messages : List AgentMessage
  processing_time : Option Int
deriving DecidableEq, Repr

/-- The method `DocumentOrchestrator._handle_planning`: when the analysis
requires planning, transition to Planning, create or update the plan,
track the activity and queue a plan-created message.  Returns the
`plan_updated` flag; an exception in the planner call aborts with the
state reached so far. -/
def handle_planning (o : OrchOracles) (ctx : AgentContext) (st : OrchState)
    (analysis : Analysis) : Except (String × OrchState) (OrchState × Bool) :=
  if !analysis.requires_planning then
    .ok (st, false)
  else
    let sm1 := st.sm.transition_to .planning (AgentType.planner).value
      (some "Creating document plan") o.now
    let acts1 := emit_activity st.activities "planner" "Creating document plan"
      "in_progress" (some ctx.user_message) none none [] o.now
    let st1 := { st with sm := sm1, activities := acts1 }
    let planned :=
      match st.current_plan with
      | some p => o.plan_update p
      | none => o.plan_create
    match planned with
    | .error e => .error (e, st1)
    | .ok plan =>
      let n := plan.sections.length
      let acts2 := update_activity_status st1.activities "planner"
        "Creating document plan" "completed" (some s!"Plan with {n} sections")
        none o.now
      let sm2 := sm1.add_message
        { agent_type := (AgentType.planner).value
          message_type := "plan_created"
          content := s!"Created plan with {n} sections"
          metadata := .planMeta plan
          timestamp := o.now }
      .ok ({ st1 with sm := sm2, activities := acts2, current_plan := some plan },
        true)

/-- The writing phase of `_execute_plan` (document_orchestrator.py lines
455-504). -/
def writing_phase (o : OrchOracles) (ctx : AgentContext) (st : OrchState)
    (analysis : Analysis) : Except (String × OrchState) (OrchState × WriteResult) :=
  let sm1 := st.sm.transition_to .writing (AgentType.writer).value
    (some "Generating content") o.now
  let acts1 := emit_activity st.activities "writer" "Generating document content"
    "in_progress" (some ctx.user_message) none none [] o.now
  let st1 := { st with sm := sm1, activities := acts1 }
  match o.write with
  | .error e => .error (e, st1)
  | .ok wr =>
    let w := wr.words_written
    let acts2 :=
      if wr.success then
        let acts2a := update_activity_status st1.activities "writer"
          "Generating document content" "completed"
          (some s!"{w} words written") none o.now
        if wr.document_updated then
          emit_activity acts2a "orchestrator" "Saving content to document"
            "completed" none (some s!"Document updated with {w} words") none [] o.now
        else
          acts2a
      else
        update_activity_status st1.activities "writer"
          "Generating document content" "error" none
          (some (wr.error.getD "Writing failed")) o.now
    let acts3 :=
      if analysis.requires_review then
        emit_activity acts2 "orchestrator" "Writer completed, sending to reviewer"
          "completed" none (some s!"Content ready for review: {w} words") none [] o.now
      else
        acts2
    let sm2 := sm1.add_message
      { agent_type := (AgentType.writer).value
        message_type := "content_generated"
        content := s!"Generated {w} words"
        metadata := .writeMeta wr
        timestamp := o.now }
    .ok ({ st1 with sm := sm2, activities := acts3 }, wr)

/-- The review phase of `_execute_plan` (lines 506-542). -/
def review_phase (o : OrchOracles) (st : OrchState) :
    Except (String × OrchState) (OrchState × ReviewResult) :=
  let sm1 := st.sm.transition_to .reviewing (AgentType.reviewer).value
    (some "Reviewing content") o.now
  let acts1 := emit_activity st.activities "reviewer" "Reviewing content quality"
    "in_progress" none none none [] o.now
  let st1 := { st with sm := sm1, activities := acts1 }
  match o.review with
  | .error e => .error (e, st1)
  | .ok rr =>
    let s := rr.score
    let acts2 :=
      if rr.success then
        update_activity_status st1.activities "reviewer"
          "Reviewing content quality" "completed"
          (some s!"Review score: {s}/10") none o.now
      else
        update_activity_status st1.activities "reviewer"
          "Reviewing content quality" "error" none
          (some (rr.error.getD "Review failed")) o.now
    let acts3 := emit_activity acts2 "orchestrator"
      "Review completed, finalizing response" "completed" none
      (some s!"Review score: {s}/10, ready for final response") none [] o.now
    let sm2 := sm1.add_message
      { agent_type := (AgentType.reviewer).value
        message_type := "content_reviewed"
        content := s!"Content review complete. Score: {s}/10"
        metadata := .reviewMeta rr
        timestamp := o.now }
    .ok ({ st1 with sm := sm2, activities := acts3 }, rr)

/-- The method `DocumentOrchestrator._execute_plan` (lines 430-544). -/
def execute_plan (o : OrchOracles) (ctx : AgentContext) (st : OrchState)
    (analysis : Analysis) : Except (String × OrchState) (OrchState × ExecResult) :=
  let is_simple_conversation :=
    !analysis.requires_planning && !analysis.requires_writing &&
      !analysis.requires_review
  let st0 :=
    if is_simple_conversation then
      let intent := analysis.intent
      let acts := emit_activity st.activities "orchestrator"
        "Preparing conversational response" "in_progress"
        (some s!"Intent: {intent}") none none [] o.now
      let acts2 := update_activity_status acts "orchestrator"
        "Preparing conversational response" "completed"
        (some "Ready to generate response") none o.now
      { st with activities := acts2 }
    else
      st
  let afterWriting : Except (String × OrchState) (OrchState × ExecResult) :=
    if analysis.requires_writing then
      match writing_phase o ctx st0 analysis with
      | .error es => .error es
      | .ok (st1, wr) =>
        .ok (st1,
          { content_generated := true
            content_reviewed := false
            changes_made := wr.changes_made
            review_score := none })
    else
      .ok (st0,
        { content_generated := false
          content_reviewed := false
          changes_made := 0
          review_score := none })
  match afterWriting with
  | .error es => .error es
  | .ok (st1, res1) =>
    if analysis.requires_review then
      match review_phase o st1 with
      | .error es => .error es
      | .ok (st2, rr) =>
        .ok (st2, { res1 with content_reviewed := true, review_score := some rr.score })
    else
      .ok (st1, res1)

/-- The method `DocumentOrchestrator._determine_preview_update` (lines
546-586): consult the preview engine, and on a positive decision
transition to UpdatingPreview, record the update and queue a message. -/
def determine_preview_update (o : OrchOracles) (st : OrchState)
    (execution_result : ExecResult) : OrchState × Bool :=
  let current_state := st.sm.current_state
  let last_action :=
    if execution_result.content_generated then AgentAction.write_content
    else AgentAction.analyze_request
  let time_since_last_update : Int :=
    match st.engine.last_update_time with
    | some t => (o.now : Int) - t
    | none => 0
  let should_update := st.engine.should_update_preview current_state last_action
    time_since_last_update execution_result.changes_made false
  if should_update then
    let sm1 := st.sm.transition_to .updating_preview (AgentType.orchestrator).value
      (some "Updating document preview") o.now
    let engine1 := st.engine.record_update (o.now : Int)
    let sm2 := sm1.add_message
      { agent_type := (AgentType.orchestrator).value
        message_type := "preview_updated"
        content := "Document preview has been updated"
        metadata := .pairs [("update_reason", "content_changes")]
        timestamp := o.now }
    ({ st with sm := sm2, engine := engine1 }, true)
  else
    (st, false)

/-- The body of the `try` block of `process_user_request` (lines 115-191):
analyze, plan, execute, decide the preview, respond, return to Idle, and
build the success dict.  An error anywhere aborts with the state reached
at that point. -/
def run_pipeline (o : OrchOracles) (document_id : Int)
    (conversation_id : Option Int) (user_message : String)
    (history : List ChatMessage) (st0 : OrchState) :
    Except (String × OrchState) (OrchState × RequestResult) :=
  let ctx : AgentContext :=
    { document_id := document_id
      conversation_id := conversation_id
      user_message := user_message
      plan := none
      conversation_history := history
      metadata := [] }
  let sm1 := st0.sm.transition_to .analyzing (AgentType.orchestrator).value
    (some "Starting analysis of user request") o.now
  let acts1 := emit_activity st0.activities "orchestrator"
    "Analyzing user request" "in_progress" (some user_message) none none [] o.now
  let st1 := { st0 with sm := sm1, activities := acts1 }
  match o.analyze with
  | .error e => .error (e, st1)
  | .ok analysis =>
    let intent := analysis.intent
    let acts2 := update_activity_status st1.activities "orchestrator"
      "Analyzing user request" "completed" (some s!"Intent: {intent}") none o.now
    let st2 := { st1 with activities := acts2 }
    match handle_planning o ctx st2 analysis with
    | .error es => .error es
    | .ok (st3, plan_updated) =>
      let st4 :=
        if plan_updated then
          let acts4 := emit_activity st3.activities "orchestrator"
            "Plan created, handing off to writer" "completed" none
            (some "Plan ready for content generation") none [] o.now
          { st3 with activities := acts4 }
        else
          st3
      let ctx1 := { ctx with plan := st4.current_plan }
      match execute_plan o ctx1 st4 analysis with
      | .error es => .error es
      | .ok (st5, execution_result) =>
        let (st6, should_update) := determine_preview_update o st5 execution_result
        let st7 :=
          if should_update then
            let acts7 := emit_activity st6.activities "orchestrator"
              "Coordinating preview update" "completed" none
              (some "Preview update scheduled") none [] o.now
            { st6 with activities := acts7 }
          else
            st6
        let acts8 := emit_activity st7.activities "orchestrator"
          "Generating final response" "in_progress"
          (some "Compiling agent results into user response") none none [] o.now
        let st8 := { st7 with activities := acts8 }
        match o.respond with
        | .error e => .error (e, st8)
        | .ok final_response =>
          let nwords := (pyWords final_response).length
          let acts9 := update_activity_status st8.activities "orchestrator"
            "Generating final response" "completed"
            (some s!"Response ready: {nwords} words") none o.now
          let sm9 := st8.sm.transition_to .idle (AgentType.orchestrator).value
            (some "Request processing complete") o.now
          let (msgs, sm10) := AgentStateManager.get_messages sm9
          .ok ({ st8 with sm := sm10, activities := acts9 },
            { success := true
              response := some final_response
              error := none
              plan_updated := some plan_updated
              preview_ready := some should_update
              messages := msgs
              processing_time := some o.elapsed })

/-- The method `DocumentOrchestrator.process_user_request` (lines 108-213):
run the pipeline; any escaping exception is caught, the state machine is
forced to Error, an error activity is emitted, and the failure dict is
returned.  The function is total: no exception reaches the caller. -/
def process_user_request (o : OrchOracles) (document_id : Int)
    (conversation_id : Option Int) (user_message : String)
    (history : List ChatMessage) (st0 : OrchState) : OrchState × RequestResult :=
  match run_pipeline o document_id conversation_id user_message history st0 with
  | .ok (st, r) => (st, r)
  | .error (e, st) =>
    let sm1 := st.sm.transition_to .error (AgentType.orchestrator).value
      (some ("Error: " ++ e)) o.now
    let acts1 := emit_activity st.activities "orchestrator" "Processing failed"
      "error" none none (some e) [] o.now
    let (msgs, sm2) := AgentStateManager.get_messages sm1
    ({ st with sm := sm2, activities := acts1 },
      { success := false
        response := none
        error := some e
        plan_updated := none
        preview_ready := none
        messages := msgs
        processing_time := none })

/-! ## Theorems -/

/-- Helper: forcing the manager to Error always lands in Error, whatever the
current state was. -/
lemma transition_to_error_current (m : AgentStateManager) (agent : String)
    (msg : Option String) (now : Nat) :
    (m.transition_to .error agent msg now).current_state = .error := by
  unfold AgentStateManager.transition_to
  split_ifs with h
  · rfl
  · exact not_not.mp h

/-- C1, counterexample.  The claim says a transition to a target outside the
allowed-transition table is rejected with the state retained and no log
entry.  In the code `transition_to` never consults the table: from the
initial Idle state, a request for Writing (not reachable from Idle per
`can_transition_to`) is applied and logged. -/
theorem C1_counterexample :
    AgentStateManager.can_transition_to AgentStateManager.init .writing = false ∧
    (AgentStateManager.init.transition_to .writing "writer"
        (some "Generating content") 0).current_state = .writing ∧
    (AgentStateManager.init.transition_to .writing "writer"
        (some "Generating content") 0).state_history.length = 1 := by
  refine ⟨by decide, by decide, by decide⟩

/-- C1, amended.  `can_transition_to` does report exactly the static table,
but `transition_to` applies any transition to a different state
unconditionally, appending a log entry; illegal targets are not rejected
and no rejection signal is returned. -/
theorem C1_table_is_query_only (m : AgentStateManager) (t : AgentState)
    (agent : String) (msg : Option String) (now : Nat) :
    (m.can_transition_to t = true ↔ t ∈ allowed_transitions m.current_state) ∧
    (t ≠ m.current_state →
      (m.transition_to t agent msg now).current_state = t ∧
      (m.transition_to t agent msg now).state_history.length =
        m.state_history.length + 1) := by
  constructor
  · simp [AgentStateManager.can_transition_to]
  · intro h
    have h' : m.current_state ≠ t := fun hc => h hc.symm
    simp [AgentStateManager.transition_to, h']

/-- C1 witness: instantiate the amended theorem at the initial manager and
the (illegal) target Writing. -/
theorem C1_witness :
    (AgentStateManager.init.transition_to .writing "writer" none 5).current_state
        = .writing ∧
    (AgentStateManager.init.transition_to .writing "writer" none 5).state_history.length
        = 1 := by
  have h := (C1_table_is_query_only AgentStateManager.init .writing "writer" none 5).2
    (by decide)
  exact ⟨h.1, h.2⟩

/-- C8: transitioning to the current state is a no-op (the manager, hence
its log and queue, is unchanged); transitioning to a different state
appends exactly one log entry carrying the timestamp, the old state, the
new state, the acting agent and the reason. -/
theorem C8_transition_log (m : AgentStateManager) (t : AgentState)
    (agent : String) (msg : Option String) (now : Nat) :
    (t = m.current_state → m.transition_to t agent msg now = m) ∧
    (t ≠ m.current_state →
      (m.transition_to t agent msg now).state_history =
        m.state_history ++
          [{ timestamp := now
             from_state := some m.current_state
             to_state := t
             agent := agent
             message := msg }] ∧
      (m.transition_to t agent msg now).current_state = t ∧
      (m.transition_to t agent msg now).message_queue = m.message_queue) := by
  constructor
  · intro h
    simp [AgentStateManager.transition_to, h]
  · intro h
    have h' : m.current_state ≠ t := fun hc => h hc.symm
    simp [AgentStateManager.transition_to, h']

/-- C8 witness: the no-op at Idle→Idle and a real Idle→Analyzing transition
on the fresh manager. -/
theorem C8_witness :
    AgentStateManager.init.transition_to .idle "orchestrator" none 3 =
      AgentStateManager.init ∧
    (AgentStateManager.init.transition_to .analyzing "orchestrator"
        (some "Starting analysis of user request") 3).state_history =
      [{ timestamp := 3
         from_state := some .idle
         to_state := .analyzing
         agent := "orchestrator"
         message := some "Starting analysis of user request" }] := by
  refine ⟨(C8_transition_log AgentStateManager.init .idle "orchestrator" none 3).1
    (by decide), ?_⟩
  have h := (C8_transition_log AgentStateManager.init .analyzing "orchestrator"
    (some "Starting analysis of user request") 3).2 (by decide)
  simpa [AgentStateManager.init] using h.1

/-- C5: the preview decision of the default engine is the short-circuit
disjunction of the five rules in order (user request; force-update
states Idle/WaitingFeedback; more than 100 changes and at least the
30-second interval; WriteContent and the interval; ReviewContent), and
in particular 150 changes after 45 seconds always update, while 50
changes with a non-writing, non-reviewing action in a non-forcing state
without a user request never do. -/
theorem C5_preview_policy :
    (∀ (s : AgentState) (a : AgentAction) (t c : Int) (u : Bool),
      PreviewUpdateDecision.init.should_update_preview s a t c u = true ↔
        (u = true ∨ s ∈ [AgentState.idle, AgentState.waiting_feedback] ∨
         (c > 100 ∧ t ≥ 30) ∨ (a = .write_content ∧ t ≥ 30) ∨
         a = .review_content)) ∧
    (∀ (s : AgentState) (a : AgentAction) (u : Bool),
      PreviewUpdateDecision.init.should_update_preview s a 45 150 u = true) ∧
    (∀ (s : AgentState) (a : AgentAction) (t : Int),
      s ∉ [AgentState.idle, AgentState.waiting_feedback] →
      a ≠ .write_content → a ≠ .review_content →
      PreviewUpdateDecision.init.should_update_preview s a t 50 false = false) := by
  refine ⟨fun s a t c u => ?_, fun s a u => ?_, fun s a t hs hw hr => ?_⟩
  · simp only [PreviewUpdateDecision.should_update_preview,
      PreviewUpdateDecision.init]
    split_ifs <;> simp_all
  · simp only [PreviewUpdateDecision.should_update_preview,
      PreviewUpdateDecision.init]
    split_ifs <;> first | rfl | omega
  · simp only [PreviewUpdateDecision.should_update_preview,
      PreviewUpdateDecision.init]
    split_ifs <;> simp_all

/-- C5 witness: the two concrete scenarios of the claim on the default
engine. -/
theorem C5_witness :
    PreviewUpdateDecision.init.should_update_preview .writing
      .analyze_request 45 150 false = true ∧
    PreviewUpdateDecision.init.should_update_preview .writing
      .analyze_request 10 50 false = false := by
  refine ⟨C5_preview_policy.2.1 .writing .analyze_request false, ?_⟩
  exact C5_preview_policy.2.2 .writing .analyze_request 10 (by decide) (by decide)
    (by decide)

/-- C3: whatever the task category and message list, when the primary
provider fails (its adapter is missing or its generate call raises) and
the configured fallback also fails (adapter missing; for a non-mock
fallback, its generate call raises; a present "mock" fallback cannot
fail because it is answered synthetically), `route_request` returns the
terminal generic apology — a fixed non-empty string.  The embedding is a
total function, modelling that this path never raises. -/
theorem C3_route_terminal_apology (adapters : AdapterMap) (config : AgentConfig)
    (agent_type : AgentType) (messages : List ChatMessage) (timeout : Int)
    (h1 : ∀ ad, adapters (config.get_llm_for_agent agent_type).1 = some ad →
      ad.generate messages (config.get_llm_for_agent agent_type).2 timeout = none)
    (h2 : config.fallback_llm = "mock" → adapters "mock" = none)
    (h3 : ∀ ad, adapters config.fallback_llm = some ad →
      ad.generate messages config.fallback_model timeout = none) :
    route_request adapters config agent_type messages timeout = finalApology ∧
    finalApology ≠ "" := by
  refine ⟨?_, by decide⟩
  have hfb : routeFallback adapters config messages timeout = finalApology := by
    simp only [routeFallback]
    cases hads : adapters config.fallback_llm with
    | none => simp only [hads]
    | some ad =>
      by_cases hmock : config.fallback_llm = "mock"
      · rw [hmock] at hads
        rw [h2 hmock] at hads
        exact absurd hads (by simp)
      · simp only [hads, if_neg hmock, h3 ad hads]
  have hroute : route_request adapters config agent_type messages timeout =
      (match adapters (config.get_llm_for_agent agent_type).1 with
       | some ad =>
         match ad.generate messages (config.get_llm_for_agent agent_type).2
             timeout with
         | some result => result
         | none => routeFallback adapters config messages timeout
       | none => routeFallback adapters config messages timeout) := by
    simp only [route_request]
  rw [hroute]
  cases hadp : adapters (config.get_llm_for_agent agent_type).1 with
  | none => exact hfb
  | some ad => simp only [h1 ad hadp]; exact hfb

/-- C3 witness: with no adapters at all (so primary and fallback both fail)
the default configuration gets the terminal apology back. -/
theorem C3_witness :
    route_request (fun _ => none) {} .writer [] 30 = finalApology ∧
    finalApology ≠ "" :=
  C3_route_terminal_apology (fun _ => none) {} .writer [] 30
    (fun ad h => by simp at h) (fun _ => rfl) (fun ad h => by simp at h)

/-- Helper: the clamp of `_extract_score` really lands in [1, 10]. -/
lemma clampScore_bounds (n : Nat) : 1 ≤ clampScore n ∧ clampScore n ≤ 10 :=
  ⟨le_min (le_max_right _ _) (by norm_num), min_le_right _ _⟩

/-- C7: reviewer score extraction.  "Overall Score: 9/10" matches the first
pattern with value 9; "Quality rating: 13" reaches the rating pattern
and is clamped to 10; a response matching no pattern defaults to 7; and
every extracted score lies in [1, 10]. -/
theorem C7_score_extraction :
    extract_score "Overall Score: 9/10" = 9 ∧
    extract_score "Quality rating: 13" = 10 ∧
    extract_score "Well structured and clear." = 7 ∧
    ∀ r, 1 ≤ extract_score r ∧ extract_score r ≤ 10 := by
  refine ⟨by decide, by decide, by decide, fun r => ?_⟩
  simp only [extract_score]
  cases h1 : searchKeyNum "score".toList (pyLower r).toList with
  | some n => simp only [h1]; exact clampScore_bounds n
  | none =>
    simp only [h1]
    cases h2 : searchSlashTen (pyLower r).toList with
    | some n => simp only [h2]; exact clampScore_bounds n
    | none =>
      simp only [h2]
      cases h3 : searchKeyNum "rating".toList (pyLower r).toList with
      | some n => simp only [h3]; exact clampScore_bounds n
      | none => simp only [h3]; exact ⟨by norm_num, by norm_num⟩

/-- C4: when the intent-analysis model response cannot be parsed as
structured data, the analyzer returns the deterministic rule-based
classification of the (lower-cased, stripped) user message, with the
rules applied in order: a greeting-like message of at most three words →
conversational, nothing downstream; otherwise an authoring keyword (such
as "write", "create", "draft") → writing and review required, no
planning; otherwise question-style phrasing → conversational only;
otherwise the writing-and-review default. -/
theorem C4_analysis_fallback (p : String → Option Analysis) (resp msg : String)
    (hp : p resp = none) :
    (is_simple_greeting (pyStrip (pyLower msg)) = true →
      (analyze_request p resp msg).intent = "conversation" ∧
      (analyze_request p resp msg).requires_planning = false ∧
      (analyze_request p resp msg).requires_writing = false ∧
      (analyze_request p resp msg).requires_review = false) ∧
    (is_simple_greeting (pyStrip (pyLower msg)) = false →
      requires_document_creation (pyStrip (pyLower msg)) = true →
      (analyze_request p resp msg).requires_writing = true ∧
      (analyze_request p resp msg).requires_review = true ∧
      (analyze_request p resp msg).requires_planning = false) ∧
    (is_simple_greeting (pyStrip (pyLower msg)) = false →
      requires_document_creation (pyStrip (pyLower msg)) = false →
      is_question_only (pyStrip (pyLower msg)) = true →
      (analyze_request p resp msg).intent = "ask_question" ∧
      (analyze_request p resp msg).requires_planning = false ∧
      (analyze_request p resp msg).requires_writing = false ∧
      (analyze_request p resp msg).requires_review = false) ∧
    (is_simple_greeting (pyStrip (pyLower msg)) = false →
      requires_document_creation (pyStrip (pyLower msg)) = false →
      is_question_only (pyStrip (pyLower msg)) = false →
      (analyze_request p resp msg).requires_writing = true ∧
      (analyze_request p resp msg).requires_review = true ∧
      (analyze_request p resp msg).requires_planning = false) := by
  simp only [analyze_request, hp, fallback_analysis]
  refine ⟨fun h1 => ?_, fun h1 h2 => ?_, fun h1 h2 h3 => ?_, fun h1 h2 h3 => ?_⟩
  · simp [h1]
  · simp [h1, h2]
  · simp [h1, h2, h3]
  · simp [h1, h2, h3]

/-- C4 witness: the fallback classifies "hi" as pure conversation and
"write a short proposal template" as writing plus review without
planning. -/
theorem C4_witness :
    (analyze_request (fun _ => none) "" "hi").requires_writing = false ∧
    (analyze_request (fun _ => none) "" "hi").intent = "conversation" ∧
    (analyze_request (fun _ => none) ""
      "write a short proposal template").requires_writing = true ∧
    (analyze_request (fun _ => none) ""
      "write a short proposal template").requires_review = true ∧
    (analyze_request (fun _ => none) ""
      "write a short proposal template").requires_planning = false := by
  have h1 := (C4_analysis_fallback (fun _ => none) "" "hi" rfl).1 (by decide)
  have h2 := ((C4_analysis_fallback (fun _ => none) ""
    "write a short proposal template" rfl).2.1) (by decide) (by decide)
  exact ⟨h1.2.2.1, h1.1, h2.1, h2.2.1, h2.2.2⟩

/-- C6, counterexample.  The response "hello" is unparseable as structured
data (the JSON oracle rejects everything), yet parsing does not yield
the hard-coded 3-section fallback: with no structured block present, the
code runs line-heuristic text extraction, which here produces a plan
with zero sections and estimated_time 0. -/
theorem C6_counterexample :
    (fun _ => (none : Option PlanData)) "hello" = none ∧
    parse_plan_response (fun _ => none) "hello" ≠ create_basic_plan_structure ∧
    parse_plan_response (fun _ => none) "hello" =
      { document_type := "document"
        title := "Document"
        sections := []
        estimated_time := 0 } := by
  refine ⟨rfl, by decide, by decide⟩

/-- C6, amended.  A planner response whose JSON parse raises yields the
hard-coded fallback: when the stripped response starts with a structured
block, or contains one whose extracted slice fails to parse; a response
containing no block opener at all is instead handled by line-heuristic
text extraction. -/
theorem C6_parse_fallback (p : String → Option PlanData) (r : String) :
    (pyStartsWith (pyStrip r) "\x7b" = true → p r = none →
      parse_plan_response p r = create_basic_plan_structure) ∧
    (pyStartsWith (pyStrip r) "\x7b" = false →
      ∀ s, pyFindChar r '{' = some s →
        p (pySlice r s
            (match pyRFindChar r '}' with | some j => j + 1 | none => 0)) = none →
        parse_plan_response p r = create_basic_plan_structure) ∧
    (pyStartsWith (pyStrip r) "\x7b" = false → pyFindChar r '{' = none →
      parse_plan_response p r = extract_plan_from_text r) := by
  refine ⟨fun h1 h2 => ?_, fun h1 s h2 h3 => ?_, fun h1 h2 => ?_⟩
  · simp [parse_plan_response, h1, h2]
  · simp [parse_plan_response, h1, h2, h3]
  · simp [parse_plan_response, h1, h2]

/-- C6 witness for the amended theorem: a malformed structured block falls
back to the hard-coded 3-section plan. -/
theorem C6_witness :
    parse_plan_response (fun _ => none) "{invalid}" =
      create_basic_plan_structure := by
  exact (C6_parse_fallback (fun _ => none) "{invalid}").1 (by decide) rfl

/-- Helper: appending one element makes it the last. -/
lemma getLast?_append_one {α : Type} (l : List α) (a : α) :
    (l ++ [a]).getLast? = some a := by
  induction l with
  | nil => rfl
  | cons x xs ih =>
    cases xs with
    | nil => rfl
    | cons y ys =>
      simp only [List.cons_append, List.getLast?_cons_cons] at ih ⊢
      exact ih

/-- C2: `process_user_request` is a total function of its oracles (no
exception reaches the caller), and whenever the pipeline body fails with
an exception `e`, the Pipeline State Machine is forced to Error, an
error-status activity record is appended, and the returned result is the
failure shape with `success = false` and the error message captured. -/
theorem C2_failure_contract (o : OrchOracles) (document_id : Int)
    (conversation_id : Option Int) (user_message : String)
    (history : List ChatMessage) (st0 : OrchState) (e : String) (stF : OrchState)
    (h : run_pipeline o document_id conversation_id user_message history st0 =
      .error (e, stF)) :
    (process_user_request o document_id conversation_id user_message history
        st0).1.sm.current_state = .error ∧
    (process_user_request o document_id conversation_id user_message history
        st0).2.success = false ∧
    (process_user_request o document_id conversation_id user_message history
        st0).2.error = some e ∧
    (process_user_request o document_id conversation_id user_message history
        st0).1.activities.getLast? = some
      { agent := "orchestrator"
        action := "Processing failed"
        status := "error"
        startTime := o.now
        input := none
        output := none
        error := some e
        endTime := some o.now
        metadata := [] } := by
  simp only [process_user_request, h]
  refine ⟨?_, trivial, trivial, ?_⟩
  · simp [AgentStateManager.get_messages, transition_to_error_current]
  · simp [emit_activity, getLast?_append_one]

/-- C2 witness: an analysis step that raises "boom" yields the failure
result, the Error state and the captured message. -/
theorem C2_witness :
    (process_user_request
        ⟨.error "boom", .error "x", fun _ => .error "x", .error "x", .error "x",
          .error "x", 0, 0⟩ 1 none "hi" []
        ⟨AgentStateManager.init, PreviewUpdateDecision.init, [], none⟩).2.success
      = false ∧
    (process_user_request
        ⟨.error "boom", .error "x", fun _ => .error "x", .error "x", .error "x",
          .error "x", 0, 0⟩ 1 none "hi" []
        ⟨AgentStateManager.init, PreviewUpdateDecision.init, [], none⟩).1.sm.current_state
      = .error ∧
    (process_user_request
        ⟨.error "boom", .error "x", fun _ => .error "x", .error "x", .error "x",
          .error "x", 0, 0⟩ 1 none "hi" []
        ⟨AgentStateManager.init, PreviewUpdateDecision.init, [], none⟩).2.error
      = some "boom" := by
  have h := C2_failure_contract
    ⟨.error "boom", .error "x", fun _ => .error "x", .error "x", .error "x",
      .error "x", 0, 0⟩ 1 none "hi" []
    ⟨AgentStateManager.init, PreviewUpdateDecision.init, [], none⟩ "boom" _ rfl
  exact ⟨h.2.1, h.1, h.2.2.1⟩

/-- C9, counterexample.  The claim says invalid updates are rejected by the
update accessor with the stored configuration unchanged.  In the code
`update_config` never calls `validate_config`: updating the default
configuration with `max_retries = 0` is accepted and stored, and the
stored configuration then fails validation. -/
theorem C9_counterexample :
    AgentConfigManager.init.update_config { max_retries := some 0 } none ≠
      AgentConfigManager.init ∧
    ((AgentConfigManager.init.update_config { max_retries := some 0 }
        none).get_config none).max_retries = 0 ∧
    (AgentConfigManager.init.validate_config
      ((AgentConfigManager.init.update_config { max_retries := some 0 }
        none).get_config none)).1 = false := by
  refine ⟨by decide, by decide, by decide⟩

/-- C9, amended.  `validate_config` classifies exactly as specified — it
accepts a configuration iff every configured agent provider is in the
known provider set, `max_retries ≥ 1` and `timeout_seconds ≥ 5` — but
`update_config` never invokes it: every update is applied field-wise to
the stored configuration unconditionally, valid or not. -/
theorem C9_validation_not_wired :
    (∀ (m : AgentConfigManager) (c : AgentConfig),
      (m.validate_config c).1 = true ↔
        (c.orchestrator_llm ∈ valid_providers ∧
         c.planner_llm ∈ valid_providers ∧
         c.writer_llm ∈ valid_providers ∧
         c.reviewer_llm ∈ valid_providers ∧
         1 ≤ c.max_retries ∧ 5 ≤ c.timeout_seconds)) ∧
    (∀ (m : AgentConfigManager) (u : ConfigUpdates) (document_id : Option Int),
      (m.update_config u document_id).get_config document_id =
        applyUpdates (m.get_config document_id) u) := by
  constructor
  · intro m c
    simp only [AgentConfigManager.validate_config, providerError,
      AgentConfig.get_llm_for_agent, AgentType.value]
    split_ifs <;> simp_all
  · intro m u document_id
    simp only [AgentConfigManager.update_config]
    cases document_id with
    | none => simp [AgentConfigManager.set_config, AgentConfigManager.get_config]
    | some i =>
      by_cases hi : i = 0
      · subst hi
        simp [AgentConfigManager.set_config, AgentConfigManager.get_config]
      · simp [AgentConfigManager.set_config, AgentConfigManager.get_config,
          AgentConfigManager.store, AgentConfigManager.lookup, hi, List.find?]

/-- C10: document id 0 is falsy in the Python guards, so `set_config` with
id 0 replaces the process-wide default (leaving the per-document dict
untouched) and `get_config 0` always answers the default; only a nonzero
id stores and retrieves a per-document override. -/
theorem C10_zero_id_is_default :
    (∀ (m : AgentConfigManager) (c : AgentConfig),
      (m.set_config c (some 0)).default_config = c ∧
      (m.set_config c (some 0)).document_configs = m.document_configs) ∧
    (∀ m : AgentConfigManager, m.get_config (some 0) = m.default_config) ∧
    (∀ (m : AgentConfigManager) (c : AgentConfig) (i : Int), i ≠ 0 →
      (m.set_config c (some i)).get_config (some i) = c ∧
      (m.set_config c (some i)).default_config = m.default_config) := by
  refine ⟨fun m c => ⟨rfl, rfl⟩, fun m => rfl, fun m c i hi => ⟨?_, ?_⟩⟩
  · simp [AgentConfigManager.set_config, AgentConfigManager.get_config,
      AgentConfigManager.store, AgentConfigManager.lookup, hi, List.find?]
  · simp [AgentConfigManager.set_config, AgentConfigManager.store, hi]

/-- C10 witness: storing an override for document 7 and reading it back. -/
theorem C10_witness :
    (AgentConfigManager.init.set_config { max_retries := 5 }
        (some 7)).get_config (some 7) = { max_retries := 5 } ∧
    (AgentConfigManager.init.set_config { max_retries := 5 }
        (some 7)).default_config = AgentConfigManager.init.default_config := by
  exact C10_zero_id_is_default.2.2 AgentConfigManager.init { max_retries := 5 } 7
    (by decide)

end DocuForge
